import Mathlib

/-!
Shallow embedding of the IGC flight-log reader in
src/aerofiles/igc/reader.py (classes Reader and LowLevelReader),
under Python 3 semantics.  Strings are lists of characters; Python
slicing, indexing, strip, split and int() are modelled explicitly;
every fallible computation returns an Except value whose error
constructor records the kind of Python exception raised.
-/

namespace IGC

/-- Python strings, modelled as lists of characters. -/
abbrev Str := List Char

deriving instance DecidableEq for Except

/-- The kinds of Python exceptions the reader can raise.  The message
is kept to tell distinct ValueError and TypeError sites apart. -/
inductive Err where
  | valueError (msg : String)
  | typeError (msg : String)
  | indexError
  | attributeError
  | keyError
deriving Repr, DecidableEq

/-- Whitespace characters stripped by Python str.strip. -/
def pyIsSpace (c : Char) : Bool :=
  c = ' ' || c = '\t' || c = '\n' || c = '\x0d' || c = '\x0b' || c = '\x0c'

/-- Python str.strip(): remove leading and trailing whitespace. -/
def pyStrip (s : Str) : Str :=
  ((s.dropWhile pyIsSpace).reverse.dropWhile pyIsSpace).reverse

/-- Python str.lstrip(): remove leading whitespace. -/
def pyLstrip (s : Str) : Str :=
  s.dropWhile pyIsSpace

/-- Normalize one slice bound the way Python does: a negative bound
counts from the end, and bounds are clamped into [0, len]. -/
def pyBound (n : Nat) (i : Int) : Nat :=
  if i < 0 then (i + n).toNat else min i.toNat n

/-- Python slicing s[a:b] (step 1), total: out-of-range bounds clamp. -/
def pySlice (s : Str) (a b : Int) : Str :=
  let lo := pyBound s.length a
  let hi := pyBound s.length b
  (s.drop lo).take (hi - lo)

/-- Python slicing s[a:] with the end bound omitted. -/
def pySliceFrom (s : Str) (a : Int) : Str :=
  pySlice s a s.length

/-- Python indexing s[i]: IndexError when out of range, negative
indices count from the end. -/
def pyGet (s : Str) (i : Int) : Except Err Char :=
  let j : Int := if i < 0 then i + s.length else i
  if h : 0 ≤ j ∧ j.toNat < s.length then .ok (s.get ⟨j.toNat, h.2⟩)
  else .error .indexError

/-- Numeric value of a list of decimal digits. -/
def digitsVal (s : Str) : Nat :=
  s.foldl (fun a c => a * 10 + (c.toNat - 48)) 0

/-- Python int(str): strips whitespace, allows one leading sign, then
requires a nonempty run of decimal digits; otherwise ValueError. -/
def pyInt (s : Str) : Except Err Int :=
  let bad : Except Err Int := .error (.valueError "invalid literal for int with base 10")
  match pyStrip s with
  | '-' :: ds => if !ds.isEmpty && ds.all Char.isDigit then .ok (-(digitsVal ds : Int)) else bad
  | '+' :: ds => if !ds.isEmpty && ds.all Char.isDigit then .ok (digitsVal ds : Int) else bad
  | ds => if !ds.isEmpty && ds.all Char.isDigit then .ok (digitsVal ds : Int) else bad

/-- Python str.split(sep) for a one-character separator: always a
nonempty list of chunks, one more chunk than separator occurrences. -/
def pySplit (s : Str) (sep : Char) : List Str :=
  match s with
  | [] => [[]]
  | c :: rest =>
    if c = sep then [] :: pySplit rest sep
    else
      match pySplit rest sep with
      | h :: t => (c :: h) :: t
      | [] => [[c]]

/-- datetime.time value (validated on construction). -/
structure Time where
  hour : Int
  minute : Int
  second : Int
deriving Repr, DecidableEq

/-- datetime.time(h, m, s): ValueError unless each field is in range. -/
def mkTime (h m s : Int) : Except Err Time :=
  if 0 ≤ h ∧ h ≤ 23 ∧ 0 ≤ m ∧ m ≤ 59 ∧ 0 ≤ s ∧ s ≤ 59 then .ok ⟨h, m, s⟩
  else .error (.valueError "time field out of range")

/-- datetime.date value (validated on construction). -/
structure Date where
  year : Int
  month : Int
  day : Int
deriving Repr, DecidableEq

/-- Gregorian leap-year rule used by datetime. -/
def isLeap (y : Int) : Bool :=
  (y % 4 = 0 && y % 100 ≠ 0) || y % 400 = 0

/-- Number of days in a month, as validated by datetime.date. -/
def daysInMonth (y m : Int) : Int :=
  if m = 1 ∨ m = 3 ∨ m = 5 ∨ m = 7 ∨ m = 8 ∨ m = 10 ∨ m = 12 then 31
  else if m = 4 ∨ m = 6 ∨ m = 9 ∨ m = 11 then 30
  else if isLeap y then 29 else 28

/-- datetime.date(y, m, d): ValueError unless the date is valid. -/
def mkDate (y m d : Int) : Except Err Date :=
  if 1 ≤ y ∧ y ≤ 9999 ∧ 1 ≤ m ∧ m ≤ 12 ∧ 1 ≤ d ∧ d ≤ daysInMonth y m then .ok ⟨y, m, d⟩
  else .error (.valueError "date field out of range")

/-- LowLevelReader.decode_time: the string must have length 6, its
three two-digit fields are parsed by int() and passed to datetime.time. -/
def decode_time (s : Str) : Except Err Time := do
  if s.length ≠ 6 then
    .error (.valueError "Time string does not have correct size")
  else
    let h ← pyInt (pySlice s 0 2)
    let m ← pyInt (pySlice s 2 4)
    let sec ← pyInt (pySlice s 4 6)
    mkTime h m sec

/-- LowLevelReader.decode_date, with datetime.date.today().year passed
in explicitly as todayYear (the source reads the wall clock). -/
def decode_date (todayYear : Int) (s : Str) : Except Err Date := do
  if s.length ≠ 6 then
    .error (.valueError "Date string does not have correct length")
  else
    let dd ← pyInt (pySlice s 0 2)
    let mm ← pyInt (pySlice s 2 4)
    let yy ← pyInt (pySlice s 4 6)
    let currentYY := todayYear % 100
    let century := todayYear - currentYY
    let yyyy := if yy < currentYY then century + yy else century - 100 + yy
    mkDate yyyy mm dd

/-- Values stored in the Python dicts built by the reader. -/
inductive Val where
  | vnone
  | vint (n : Int)
  | vstr (s : Str)
  | vtime (t : Time)
  | vdate (d : Date)
deriving Repr, DecidableEq

/-- An insertion-ordered Python dict with string keys. -/
abbrev Dict := List (Str × Val)

/-- d[k] = v on an insertion-ordered dict: overwrite in place when the
key is present, otherwise append. -/
def dictSet {α : Type} : List (Str × α) → Str → α → List (Str × α)
  | [], k, v => [(k, v)]
  | (k', v') :: rest, k, v =>
    if k' = k then (k', v) :: rest else (k', v') :: dictSet rest k v

/-- Membership test for a dict key. -/
def dictHas {α : Type} : List (Str × α) → Str → Bool
  | [], _ => false
  | (k', _) :: rest, k => k' = k || dictHas rest k

/-- Dict lookup. -/
def dictGet {α : Type} : List (Str × α) → Str → Option α
  | [], _ => none
  | (k', v) :: rest, k => if k' = k then some v else dictGet rest k

/-- Remove a key known to be present (helper for del). -/
def dictRemove {α : Type} : List (Str × α) → Str → List (Str × α)
  | [], _ => []
  | (k', v) :: rest, k => if k' = k then rest else (k', v) :: dictRemove rest k

/-- Python del d[k]: KeyError when the key is absent. -/
def pyDictDel {α : Type} (d : List (Str × α)) (k : Str) : Except Err (List (Str × α)) :=
  if dictHas d k then .ok (dictRemove d k) else .error .keyError

/-- d.update(e): merge e into d, later entries overwriting earlier ones. -/
def dictUpdate {α : Type} (d e : List (Str × α)) : List (Str × α) :=
  e.foldl (fun acc kv => dictSet acc kv.1 kv.2) d

/-- One extension declaration from an I or J record:
{bytes: (start, end), extension_type: three-letter code}. -/
structure ExtDef where
  startByte : Int
  endByte : Int
  code : Str
deriving Repr, DecidableEq

/-- Decoded A record value. -/
structure AVal where
  manufacturer : Str
  idCode : Str
  idAddition : Option Str
deriving Repr, DecidableEq

/-- Decoded B record value (before extension resolution). -/
structure BVal where
  time : Time
  lat : Str
  lon : Str
  validity : Char
  pressureAlt : Int
  gpsAlt : Int
  startIndexExtensions : Int
  extensionsString : Str
deriving Repr, DecidableEq

/-- Decoded D record value. -/
structure DVal where
  qualifier : Str
  stationId : Str
deriving Repr, DecidableEq

/-- Decoded K record value (before extension resolution). -/
structure KVal where
  time : Time
  valueString : Str
  startIndex : Int
deriving Repr, DecidableEq

/-- Decoded L record value. -/
structure LVal where
  source : Str
  comment : Str
deriving Repr, DecidableEq

/-- One decoded line, tagged by its record type.  The C and E decoders
return the value None in the source (placeholders).  The F payload
shape mirrors the dict literal in decode_F_record. -/
inductive Record where
  | A (v : AVal)
  | B (v : BVal)
  | C
  | D (v : DVal)
  | E
  | F (time : Time) (satellites : List Str)
  | G (v : Str)
  | H (v : Dict)
  | I (v : Option (List ExtDef))
  | J (v : Option (List ExtDef))
  | K (v : KVal)
  | L (v : LVal)
deriving Repr, DecidableEq

/-- LowLevelReader.decode_A_record.  The id addition is None exactly
when the line has length 7, otherwise the trimmed tail from column 7. -/
def decode_A_record (line : Str) : Except Err Record :=
  .ok (.A ⟨pySlice line 0 3, pySlice line 3 6,
    if line.length = 7 then none else some (pyStrip (pySliceFrom line 7))⟩)

/-- decode_latitude: placeholder in the source, returns the raw slice. -/
def decode_latitude (s : Str) : Str := s

/-- decode_longitude: placeholder in the source, returns the raw slice. -/
def decode_longitude (s : Str) : Str := s

/-- LowLevelReader.decode_B_record. -/
def decode_B_record (line : Str) : Except Err Record := do
  let t ← decode_time (pySlice line 1 7)
  let validity ← pyGet line 24
  let pAlt ← pyInt (pySlice line 25 30)
  let gAlt ← pyInt (pySlice line 30 35)
  .ok (.B ⟨t, decode_latitude (pySlice line 7 15), decode_longitude (pySlice line 15 24),
    validity, pAlt, gAlt, 35, pyStrip (pySliceFrom line 35)⟩)

/-- LowLevelReader.decode_C_record: placeholder, value None. -/
def decode_C_record (_line : Str) : Except Err Record :=
  .ok .C

/-- LowLevelReader.decode_D_record. -/
def decode_D_record (line : Str) : Except Err Record := do
  let q ← pyGet line 1
  let qualifier ←
    if q = '1' then pure ("GPS".data)
    else if q = '2' then pure ("DGPS".data)
    else .error (.valueError "This qualifier is not possible")
  .ok (.D ⟨qualifier, pySlice line 2 6⟩)

/-- LowLevelReader.decode_E_record: placeholder, value None. -/
def decode_E_record (_line : Str) : Except Err Record :=
  .ok .E

/-- LowLevelReader.decode_F_record.  After the evenness check the
source computes no_satelites = (len(line.strip()) - 7) / 2 with true
division, a Python float, and immediately calls range(no_satelites);
under Python 3 range of a float raises TypeError whatever its value,
so the satellite-chunking loop and the final dict are unreachable. -/
def decode_F_record (line : Str) : Except Err Record := do
  let _t ← decode_time (pySlice line 1 7)
  if (((pyStrip line).length : Int) - 7) % 2 ≠ 0 then
    .error (.valueError "F record formatting is incorrect")
  else
    .error (.typeError "float object cannot be interpreted as an integer")

/-- LowLevelReader.decode_G_record. -/
def decode_G_record (line : Str) : Except Err Record :=
  .ok (.G (pySliceFrom (pyStrip line) 1))

/-- Turn an optional string into the dict value used by the H record
sub-decoders (None or the string itself). -/
def valOfOptStr : Option Str → Val
  | none => .vnone
  | some s => .vstr s

/-- decode_H_utc_date. -/
def decode_H_utc_date (todayYear : Int) (line : Str) : Except Err Dict := do
  let d ← decode_date todayYear (pySlice line 5 11)
  .ok [("utc_date".data, .vdate d)]

/-- decode_H_fix_accuracy. -/
def decode_H_fix_accuracy (line : Str) : Except Err Dict := do
  let fa := pyStrip (pySliceFrom line 5)
  if fa = [] then .ok [("fix_accuracy".data, .vnone)]
  else do
    let n ← pyInt fa
    .ok [("fix_accuracy".data, .vint n)]

/-- decode_H_pilot. -/
def decode_H_pilot (line : Str) : Except Err Dict :=
  let p := pyStrip (pySliceFrom line 11)
  .ok [("pilot".data, if p = [] then .vnone else .vstr p)]

/-- decode_H_copilot. -/
def decode_H_copilot (line : Str) : Except Err Dict :=
  let p := pyStrip (pySliceFrom line 11)
  .ok [("second_pilot".data, if p = [] then .vnone else .vstr p)]

/-- decode_H_glider_model. -/
def decode_H_glider_model (line : Str) : Except Err Dict :=
  let g := pyStrip (pySliceFrom line 16)
  .ok [("glider_model".data, if g = [] then .vnone else .vstr g)]

/-- decode_H_glider_registration. -/
def decode_H_glider_registration (line : Str) : Except Err Dict :=
  let g := pyStrip (pySliceFrom line 14)
  .ok [("glider_registration".data, if g = [] then .vnone else .vstr g)]

/-- decode_H_gps_datum. -/
def decode_H_gps_datum (line : Str) : Except Err Dict :=
  let g := pyStrip (pySliceFrom line 17)
  .ok [("gps_datum".data, if g = [] then .vnone else .vstr g)]

/-- decode_H_firmware_revision. -/
def decode_H_firmware_revision (line : Str) : Except Err Dict :=
  let f := pyStrip (pySliceFrom line 21)
  .ok [("firmware_revision".data, if f = [] then .vnone else .vstr f)]

/-- decode_H_hardware_revision. -/
def decode_H_hardware_revision (line : Str) : Except Err Dict :=
  let h := pyStrip (pySliceFrom line 21)
  .ok [("hardware_revision".data, if h = [] then .vnone else .vstr h)]

/-- decode_H_manufacturer_model (FTY): split the trimmed tail from
column 12 on commas; field 0 is the manufacturer when nonempty, field 1
is the model only when the split has exactly two parts and the second
is not blank (the model is stored unstripped). -/
def decode_H_manufacturer_model (line : Str) : Except Err Dict := do
  match pySplit (pyStrip (pySliceFrom line 12)) ',' with
  | [] => .error .indexError
  | m0 :: rest =>
    let manufacturer : Option Str := if m0 ≠ [] then some m0 else none
    let model : Option Str :=
      match rest with
      | [m1] => if pyLstrip m1 ≠ [] then some m1 else none
      | _ => none
    .ok [("manufacturer".data, valOfOptStr manufacturer),
         ("model".data, valOfOptStr model)]

/-- The gps_sensor field list of decode_H_gps_receiver: the source
branches on whether column 5 is a colon (IndexError when the line is
too short), then splits the descriptor on commas. -/
def gpsSensorFields (line : Str) : Except Err (List Str) := do
  let c ← pyGet line 5
  if c = ':' then .ok (pySplit (pyLstrip (pySliceFrom line 6)) ',')
  else .ok (pySplit (pySliceFrom line 5) ',')

/-- The enumerate loop of decode_H_gps_receiver: field 0 is unpacked by
manufacturer, model = detail.split(sep colon) and raises ValueError
unless that split has exactly two parts; fields 1 and 2 are stripped
into channels and max_alt; later fields are ignored. -/
def hGpsLoop : Nat → List Str → Option Str → Option Str → Option Str → Option Str →
    Except Err (Option Str × Option Str × Option Str × Option Str)
  | _, [], man, mod, ch, ma => .ok (man, mod, ch, ma)
  | i, d :: rest, man, mod, ch, ma =>
    if i = 0 then
      match pySplit d ':' with
      | [a, b] => hGpsLoop (i + 1) rest (some a) (some b) ch ma
      | _ => .error (.valueError "values to unpack")
    else if i = 1 then hGpsLoop (i + 1) rest man mod (some (pyStrip d)) ma
    else if i = 2 then hGpsLoop (i + 1) rest man mod ch (some (pyStrip d))
    else hGpsLoop (i + 1) rest man mod ch ma

/-- decode_H_gps_receiver. -/
def decode_H_gps_receiver (line : Str) : Except Err Dict := do
  let gs ← gpsSensorFields line
  let (man, mod, ch, ma) ← hGpsLoop 0 gs none none none none
  .ok [("manufacturer".data, valOfOptStr man),
       ("model".data, valOfOptStr mod),
       ("channels".data, valOfOptStr ch),
       ("max_alt".data, valOfOptStr ma)]

/-- decode_H_pressure_sensor: branch on whether column 19 is a colon
(IndexError when too short), split on commas, then fill manufacturer,
model and max_alt with blank-to-None normalization; max_alt is set only
when the split has exactly three parts. -/
def decode_H_pressure_sensor (line : Str) : Except Err Dict := do
  let c ← pyGet line 19
  let ps :=
    if c = ':' then pySplit (pyStrip (pySliceFrom line 20)) ','
    else pySplit (pySliceFrom line 19) ','
  let manufacturer : Option Str :=
    if h : 1 ≤ ps.length then
      let p0 := ps.get ⟨0, h⟩
      if p0 ≠ [] then some p0 else none
    else none
  let model : Option Str :=
    if h : 2 ≤ ps.length then
      let p1 := ps.get ⟨1, h⟩
      if p1 ≠ [] then some p1 else none
    else none
  let maxAlt : Option Str :=
    if h : ps.length = 3 then
      let p2 := ps.get ⟨2, by omega⟩
      if p2 ≠ [] then some p2 else none
    else none
  .ok [("manufacturer".data, valOfOptStr manufacturer),
       ("model".data, valOfOptStr model),
       ("max_alt".data, valOfOptStr maxAlt)]

/-- decode_H_competition_id. -/
def decode_H_competition_id (line : Str) : Except Err Dict :=
  let c := pyStrip (pySliceFrom line 19)
  .ok [("competition_id".data, if c = [] then .vnone else .vstr c)]

/-- decode_H_competition_class. -/
def decode_H_competition_class (line : Str) : Except Err Dict :=
  let c := pyStrip (pySliceFrom line 22)
  .ok [("competition_class".data, if c = [] then .vnone else .vstr c)]

/-- The elif chain of decode_H_record on the three-letter code tlc. -/
def decode_H_dispatch (todayYear : Int) (line : Str) (tlc : Str) : Except Err Dict :=
  if tlc = "DTE".data then decode_H_utc_date todayYear line
  else if tlc = "FXA".data then decode_H_fix_accuracy line
  else if tlc = "PLT".data then decode_H_pilot line
  else if tlc = "CM2".data then decode_H_copilot line
  else if tlc = "GTY".data then decode_H_glider_model line
  else if tlc = "GID".data then decode_H_glider_registration line
  else if tlc = "DTM".data then decode_H_gps_datum line
  else if tlc = "RFW".data then decode_H_firmware_revision line
  else if tlc = "RHW".data then decode_H_hardware_revision line
  else if tlc = "FTY".data then decode_H_manufacturer_model line
  else if tlc = "GPS".data then decode_H_gps_receiver line
  else if tlc = "PRS".data then decode_H_pressure_sensor line
  else if tlc = "CID".data then decode_H_competition_id line
  else if tlc = "CCL".data then decode_H_competition_class line
  else .error (.valueError "Invalid h-record")

/-- LowLevelReader.decode_H_record: read the source character at
column 1, dispatch on the three-letter code at columns 2 to 5, and tag
the sub-decoder result with the source character. -/
def decode_H_record (todayYear : Int) (line : Str) : Except Err Record := do
  let source ← pyGet line 1
  let value ← decode_H_dispatch todayYear line (pySlice line 2 5)
  .ok (.H (dictSet value ("source".data) (.vstr [source])))

/-- The 7-character block for extension index j in an I or J record:
line[j*7+3 : (j+1)*7+3]. -/
def extBlock (line : Str) (j : Nat) : Str :=
  pySlice line ((j : Int) * 7 + 3) (((j : Int) + 1) * 7 + 3)

/-- One iteration of the decode_extension_record loop: parse the
two-digit start and end columns and take the three-letter code. -/
def buildExt (line : Str) (j : Nat) : Except Err ExtDef := do
  let s ← pyInt (pySlice (extBlock line j) 0 2)
  let e ← pyInt (pySlice (extBlock line j) 2 4)
  .ok ⟨s, e, pySlice (extBlock line j) 4 7⟩

/-- The decode_extension_record loop over range(no_extensions),
accumulating declarations in index order. -/
def buildExts (line : Str) : Nat → Except Err (List ExtDef)
  | 0 => .ok []
  | n + 1 => do
    let ds ← buildExts line n
    let d ← buildExt line n
    .ok (ds ++ [d])

/-- LowLevelReader.decode_extension_record: two-digit count at columns
1 to 3; the trimmed line length must be count*7 + 3, else ValueError;
then one declaration per 7-character block. -/
def decode_extension_record (line : Str) : Except Err (List ExtDef) := do
  let count ← pyInt (pySlice line 1 3)
  if count * 7 + 3 ≠ ((pyStrip line).length : Int) then
    .error (.valueError "I record contains incorrect number of digits")
  else
    buildExts line count.toNat

/-- LowLevelReader.decode_I_record: an empty declaration list is
replaced by the explicit value None. -/
def decode_I_record (line : Str) : Except Err Record := do
  let exts ← decode_extension_record line
  .ok (.I (if exts.isEmpty then none else some exts))

/-- LowLevelReader.decode_J_record: same shape as decode_I_record. -/
def decode_J_record (line : Str) : Except Err Record := do
  let exts ← decode_extension_record line
  .ok (.J (if exts.isEmpty then none else some exts))

/-- LowLevelReader.decode_K_record. -/
def decode_K_record (line : Str) : Except Err Record := do
  let t ← decode_time (pySlice line 1 7)
  .ok (.K ⟨t, pySliceFrom (pyStrip line) 7, 7⟩)

/-- LowLevelReader.decode_L_record. -/
def decode_L_record (line : Str) : Except Err Record :=
  .ok (.L ⟨pySlice line 1 4, pyStrip (pySliceFrom line 4)⟩)

/-- The decoded B record as the Python dict built by decode_B_record
(keys in insertion order). -/
def bValToDict (bv : BVal) : Dict :=
  [("time".data, .vtime bv.time),
   ("lat".data, .vstr bv.lat),
   ("lon".data, .vstr bv.lon),
   ("validity".data, .vstr [bv.validity]),
   ("pressure_alt".data, .vint bv.pressureAlt),
   ("gps_alt".data, .vint bv.gpsAlt),
   ("start_index_extensions".data, .vint bv.startIndexExtensions),
   ("extensions_string".data, .vstr bv.extensionsString)]

/-- The extension loop of process_B_record: for each declaration,
slice the payload at the anchor-relative range, parse it with int()
(propagating its ValueError), and store it under the extension code. -/
def processBExts (ext : Str) (i : Int) : Dict → List ExtDef → Except Err Dict
  | d, [] => .ok d
  | d, e :: rest => do
    let n ← pyInt (pySlice ext (e.startByte - i) (e.endByte - i))
    processBExts ext i (dictSet d e.code (.vint n)) rest

/-- LowLevelReader.process_B_record: drop the anchor and payload keys
from the decoded dict, then iterate over fix_record_extensions.  When
that argument is None (no I record seen, or the last I record declared
zero extensions) the for statement raises TypeError. -/
def process_B_record (bv : BVal) (exts : Option (List ExtDef)) : Except Err Dict := do
  let base ← pyDictDel (bValToDict bv) ("start_index_extensions".data)
  let base ← pyDictDel base ("extensions_string".data)
  match exts with
  | none => .error (.typeError "NoneType object is not iterable")
  | some l => processBExts bv.extensionsString bv.startIndexExtensions base l

/-- LowLevelReader.process_K_record: start from {time: t} and add one
raw string field per declaration; iterating over None raises TypeError. -/
def process_K_record (kv : KVal) (exts : Option (List ExtDef)) : Except Err Dict :=
  match exts with
  | none => .error (.typeError "NoneType object is not iterable")
  | some l =>
    .ok (l.foldl
      (fun d e =>
        dictSet d e.code
          (.vstr (pySlice kv.valueString (e.startByte - kv.startIndex) (e.endByte - kv.startIndex))))
      [("time".data, .vtime kv.time)])

/-- LowLevelReader.parse_line: dispatch on the first character of the
line (IndexError on an empty line); getattr raises AttributeError for
a character with no decode method. -/
def parse_line (todayYear : Int) (line : Str) : Except Err Record := do
  let c ← pyGet line 0
  if c = 'A' then decode_A_record line
  else if c = 'B' then decode_B_record line
  else if c = 'C' then decode_C_record line
  else if c = 'D' then decode_D_record line
  else if c = 'E' then decode_E_record line
  else if c = 'F' then decode_F_record line
  else if c = 'G' then decode_G_record line
  else if c = 'H' then decode_H_record todayYear line
  else if c = 'I' then decode_I_record line
  else if c = 'J' then decode_J_record line
  else if c = 'K' then decode_K_record line
  else if c = 'L' then decode_L_record line
  else .error .attributeError

/-- One element of the lazy sequence yielded by LowLevelReader.next:
(result, None) for a decoded record, (None, e) for a captured error
whose line_number attribute holds the 1-based line number. -/
inductive Outcome where
  | ok (r : Record)
  | err (e : Err) (lineNumber : Nat)
deriving Repr, DecidableEq

/-- LowLevelReader.next: walk the lines threading the line_number
counter (incremented before parsing, so numbering is 1-based).  Every
decoder returns a nonempty dict, so the truthiness guard on the result
always passes and exactly one outcome is yielded per line. -/
def lowLevelNext (todayYear : Int) : Nat → List Str → List Outcome
  | _, [] => []
  | n, l :: rest =>
    (match parse_line todayYear l with
     | .ok r => Outcome.ok r
     | .error e => Outcome.err e (n + 1)) :: lowLevelNext todayYear (n + 1) rest

/-- Iterating a fresh LowLevelReader over the whole input
(line_number starts at 0). -/
def lowLevelRead (todayYear : Int) (lines : List Str) : List Outcome :=
  lowLevelNext todayYear 0 lines

/-- The aggregate-level errors Reader.read can surface: the generic
InvalidIGCFileError, or an uncaught Python exception escaping read. -/
inductive RErr where
  | invalidIGC
  | py (e : Err)
deriving Repr, DecidableEq

/-- The local state of Reader.read while consuming outcomes.  The C
and E decoders produce the value None, so task and the event entries
are unit placeholders, exactly as opaque as the source values. -/
structure ReadState where
  loggerId : Option AVal
  task : Option Unit
  fixRecordExtensions : Option (List ExtDef)
  kRecordExtensions : Option (List ExtDef)
  header : Dict
  fixRecords : List Dict
  dgpsRecords : List DVal
  eventRecords : List (Option Unit)
  satelliteRecords : List (Time × List Str)
  securityRecords : List Str
  kRecords : List Dict
  commentRecords : List LVal
deriving Repr, DecidableEq

/-- The initial state of Reader.read. -/
def initState : ReadState :=
  ⟨none, none, none, none, [], [], [], [], [], [], [], []⟩

/-- The loop body of Reader.read over the outcome sequence: any error
outcome raises InvalidIGCFileError at once; decoded records are routed
by type, with B and K records resolved against the active extension
declarations (whose failures escape as their own exceptions). -/
def readGo : ReadState → List Outcome → Except RErr ReadState
  | st, [] => .ok st
  | _, .err _ _ :: _ => .error .invalidIGC
  | st, .ok r :: rest =>
    match r with
    | .A v => readGo { st with loggerId := some v } rest
    | .B v =>
      match process_B_record v st.fixRecordExtensions with
      | .error e => .error (.py e)
      | .ok fr => readGo { st with fixRecords := st.fixRecords ++ [fr] } rest
    | .C => readGo { st with task := none } rest
    | .D v => readGo { st with dgpsRecords := st.dgpsRecords ++ [v] } rest
    | .E => readGo { st with eventRecords := st.eventRecords ++ [none] } rest
    | .F t sats => readGo { st with satelliteRecords := st.satelliteRecords ++ [(t, sats)] } rest
    | .G v => readGo { st with securityRecords := st.securityRecords ++ [v] } rest
    | .H v => readGo { st with header := dictUpdate st.header v } rest
    | .I v => readGo { st with fixRecordExtensions := v } rest
    | .J v => readGo { st with kRecordExtensions := v } rest
    | .K v =>
      match process_K_record v st.kRecordExtensions with
      | .error e => .error (.py e)
      | .ok kr => readGo { st with kRecords := st.kRecords ++ [kr] } rest
    | .L v => readGo { st with commentRecords := st.commentRecords ++ [v] } rest

/-- The document returned by Reader.read. -/
structure Document where
  loggerId : Option AVal
  fixRecords : List Dict
  task : Option Unit
  dgpsRecords : List DVal
  eventRecords : List (Option Unit)
  satelliteRecords : List (Time × List Str)
  securityRecords : List Str
  header : Dict
  kRecords : List Dict
  commentRecords : List LVal
deriving Repr, DecidableEq

/-- Reader.read: consume every outcome, then run
del header[source-key] (KeyError when no H record contributed it) and
assemble the result dict. -/
def read (todayYear : Int) (lines : List Str) : Except RErr Document :=
  match readGo initState (lowLevelRead todayYear lines) with
  | .error e => .error e
  | .ok st =>
    match pyDictDel st.header ("source".data) with
    | .error e => .error (.py e)
    | .ok hdr =>
      .ok ⟨st.loggerId, st.fixRecords, st.task, st.dgpsRecords, st.eventRecords,
           st.satelliteRecords, st.securityRecords, hdr, st.kRecords, st.commentRecords⟩

/-! ### Helper lemmas -/

/-- Bind on an error value propagates the error. -/
theorem except_bind_error {α β : Type} (e : Err) (f : α → Except Err β) :
    (Except.error e >>= f) = Except.error e := rfl

/-- Bind on a success value applies the continuation. -/
theorem except_bind_ok {α β : Type} (a : α) (f : α → Except Err β) :
    (Except.ok a >>= f : Except Err β) = f a := rfl

/-- Inverting a successful bind: the first computation succeeded and
the continuation produced the final value. -/
theorem except_bind_ok_inv {α β : Type} {x : Except Err α} {f : α → Except Err β} {b : β}
    (h : (x >>= f) = .ok b) : ∃ a, x = .ok a ∧ f a = .ok b := by
  cases x with
  | error e => exact Except.noConfusion h
  | ok a => exact ⟨a, rfl, h⟩

/-- Setting a key then looking it up returns the value just stored. -/
theorem dictGet_dictSet {α : Type} (d : List (Str × α)) (k : Str) (v : α) :
    dictGet (dictSet d k v) k = some v := by
  induction d with
  | nil => simp [dictSet, dictGet]
  | cons kv rest ih =>
    by_cases h : kv.1 = k
    · simp [dictSet, dictGet, h]
    · simp [dictSet, dictGet, h, ih]

/-- Number of occurrences of a character in a string. -/
def countChar (s : Str) (c : Char) : Nat :=
  match s with
  | [] => 0
  | c2 :: rest => (if c2 = c then 1 else 0) + countChar rest c

/-- str.split never returns an empty list of chunks. -/
theorem pySplit_ne_nil (s : Str) (sep : Char) : pySplit s sep ≠ [] := by
  cases s with
  | nil => simp [pySplit]
  | cons c rest =>
    by_cases hc : c = sep
    · simp [pySplit, hc]
    · simp only [pySplit, hc, if_false]
      cases pySplit rest sep <;> simp

/-- str.split yields one more chunk than separator occurrences. -/
theorem pySplit_length (s : Str) (sep : Char) :
    (pySplit s sep).length = countChar s sep + 1 := by
  induction s with
  | nil => simp [pySplit, countChar]
  | cons c rest ih =>
    by_cases hc : c = sep
    · simp [pySplit, hc, countChar, ih]
      omega
    · simp only [pySplit, hc, if_false, countChar, if_neg hc]
      cases hps : pySplit rest sep with
      | nil => exact absurd hps (pySplit_ne_nil rest sep)
      | cons h0 t0 =>
        have := ih
        rw [hps] at this
        simp at this ⊢
        omega

/-! ### C1: removing the header provenance key when no H record was seen -/

/-- C1 (code bug witness): on an input stream with no H record and no
erroneous lines, Reader.read does not return a document with an empty
header; the unconditional del of the source key raises KeyError.  Shown
for the empty stream and for a stream with a single valid A record. -/
theorem read_no_H_record_keyError :
    read 2026 ([] : List Str) = .error (.py .keyError)
    ∧ read 2026 ["AXXXID1".data] = .error (.py .keyError) :=
  ⟨rfl, rfl⟩

/-! ### C2: fix and auxiliary records with no active extension declarations -/

/-- C2 (code bug witness): with no extension declarations active (the
argument is None, both when no I or J record was seen and when the last
one declared zero extensions, since decode_I_record maps an empty list
to None), process_B_record and process_K_record do not succeed with a
record free of extension fields: the for statement iterates over None
and raises TypeError, which escapes Reader.read. -/
theorem process_records_none_extensions_typeError :
    (∀ bv : BVal, process_B_record bv none = .error (.typeError "NoneType object is not iterable"))
    ∧ (∀ kv : KVal, process_K_record kv none = .error (.typeError "NoneType object is not iterable"))
    ∧ decode_I_record "I00".data = .ok (.I none)
    ∧ read 2026 ["B1015005249950N00611280EA0012300123".data]
        = .error (.py (.typeError "NoneType object is not iterable"))
    ∧ read 2026 ["I00".data, "B1015005249950N00611280EA0012300123".data]
        = .error (.py (.typeError "NoneType object is not iterable"))
    ∧ read 2026 ["K10150001234".data]
        = .error (.py (.typeError "NoneType object is not iterable")) :=
  ⟨fun _ => rfl, fun _ => rfl, rfl, rfl, rfl, rfl⟩

/-! ### C3: out-of-bounds extension slices -/

/-- C3 counterexample: an active auxiliary-extension declaration whose
payload-relative slice [10-7 : 12-7] lies entirely outside the empty
payload does not make resolution fail: process_K_record succeeds and
stores the clamped (empty) slice. -/
theorem process_K_out_of_bounds_slice_succeeds :
    process_K_record ⟨⟨10, 15, 0⟩, [], 7⟩ (some [⟨10, 12, "ABC".data⟩])
      = .ok [("time".data, .vtime ⟨10, 15, 0⟩), ("ABC".data, .vstr [])] :=
  rfl

/-- C3 amended: there is no bounds check and no dedicated range error.
Python slicing clamps every computed range, so auxiliary-record
resolution with a declaration list always succeeds, and fix-record
resolution fails only when the clamped slice is rejected by int(),
propagating that ValueError. -/
theorem extension_slice_clamped_no_range_error :
    (∀ (kv : KVal) (l : List ExtDef), ∃ d, process_K_record kv (some l) = .ok d)
    ∧ (∀ (bv : BVal) (e1 : ExtDef) (er : Err),
        pyInt (pySlice bv.extensionsString (e1.startByte - bv.startIndexExtensions)
          (e1.endByte - bv.startIndexExtensions)) = .error er →
        process_B_record bv (some [e1]) = .error er) := by
  constructor
  · intro kv l
    exact ⟨_, rfl⟩
  · intro bv e1 er h
    show processBExts bv.extensionsString bv.startIndexExtensions _ [e1] = .error er
    simp only [processBExts]
    rw [h, except_bind_error]

/-- Witness for the amended C3: a fix record whose payload is the
single character 0, with a declared byte range [36, 40) that maps to
the out-of-bounds payload slice [1:5]; the clamped slice is empty,
int() raises ValueError, and resolution fails with that error. -/
theorem extension_slice_clamped_no_range_error_witness :
    process_B_record ⟨⟨10, 15, 0⟩, [], [], 'A', 0, 0, 35, "0".data⟩
      (some [⟨36, 40, "XYZ".data⟩])
      = .error (.valueError "invalid literal for int with base 10") :=
  extension_slice_clamped_no_range_error.2
    ⟨⟨10, 15, 0⟩, [], [], 'A', 0, 0, 35, "0".data⟩ ⟨36, 40, "XYZ".data⟩ _ (by decide)

/-! ### C4: decoding F records -/

/-- C4 (code bug witness): decoding the line F1015002728 does not
return a satellite list; the satellite count is computed with true
division, producing a Python float, and range() of a float raises
TypeError.  The time substring itself decodes to 10:15:00, and an F
line whose trimmed length minus 7 is odd still fails first with the
ValueError raised by the evenness check. -/
theorem decode_F_record_true_division :
    decode_F_record "F1015002728".data
      = .error (.typeError "float object cannot be interpreted as an integer")
    ∧ decode_time "101500".data = .ok ⟨10, 15, 0⟩
    ∧ (∀ (line : Str) (t : Time), decode_time (pySlice line 1 7) = .ok t →
        (((pyStrip line).length : Int) - 7) % 2 ≠ 0 →
        decode_F_record line = .error (.valueError "F record formatting is incorrect"))
    ∧ (∀ (line : Str) (t : Time), decode_time (pySlice line 1 7) = .ok t →
        (((pyStrip line).length : Int) - 7) % 2 = 0 →
        decode_F_record line
          = .error (.typeError "float object cannot be interpreted as an integer")) := by
  refine ⟨rfl, rfl, ?_, ?_⟩
  · intro line t ht hodd
    show (decode_time (pySlice line 1 7) >>= fun _t =>
      if (((pyStrip line).length : Int) - 7) % 2 ≠ 0 then
        Except.error (.valueError "F record formatting is incorrect")
      else Except.error (.typeError "float object cannot be interpreted as an integer")) = _
    rw [ht, except_bind_ok, if_pos hodd]
  · intro line t ht heven
    show (decode_time (pySlice line 1 7) >>= fun _t =>
      if (((pyStrip line).length : Int) - 7) % 2 ≠ 0 then
        Except.error (.valueError "F record formatting is incorrect")
      else Except.error (.typeError "float object cannot be interpreted as an integer")) = _
    rw [ht, except_bind_ok, if_neg (by omega)]

/-- Witness for C4: the odd-trailing-length line F1015002 fails with
the satellite-list ValueError. -/
theorem decode_F_record_true_division_witness :
    decode_F_record "F1015002".data
      = .error (.valueError "F record formatting is incorrect") :=
  decode_F_record_true_division.2.2.1 "F1015002".data ⟨10, 15, 0⟩ (by decide) (by decide)

/-! ### C9: A record id addition -/

/-- C9 counterexample: the six-character A record line AXXXID decodes
with an id addition that is present (the empty string), although the
line length is at most 7; absence would be the value None. -/
theorem short_A_line_empty_id_addition_present :
    decode_A_record "AXXXID".data = .ok (.A ⟨"AXX".data, "XID".data, some []⟩)
    ∧ (some ([] : Str)) ≠ (none : Option Str) :=
  ⟨rfl, by decide⟩

/-- C9 amended: for every line dispatched to the A decoder,
manufacturer is characters 0 to 3, id is characters 3 to 6, and the id
addition is absent exactly when the line length equals 7; otherwise it
is the trimmed substring from character 7 on (empty for shorter lines). -/
theorem a_record_id_addition_none_iff_length_seven (t : Int) (line : Str)
    (h : pyGet line 0 = .ok 'A') :
    parse_line t line = .ok (.A ⟨pySlice line 0 3, pySlice line 3 6,
      if line.length = 7 then none else some (pyStrip (pySliceFrom line 7))⟩) := by
  unfold parse_line
  rw [h, except_bind_ok, if_pos rfl]
  rfl

/-- Witness for the amended C9: AXXXID1 extra decodes with trimmed id
addition extra, through the record-type dispatch of parse_line. -/
theorem a_record_id_addition_none_iff_length_seven_witness :
    parse_line 2026 ("AXXXID1 extra".data)
      = .ok (.A ⟨"AXX".data, "XID".data, some ("extra".data)⟩) := by
  rw [a_record_id_addition_none_iff_length_seven 2026 ("AXXXID1 extra".data) (by decide)]
  decide

/-! ### C5: one outcome per line -/

/-- The low-level iteration yields as many outcomes as input lines. -/
theorem lowLevelNext_length (t : Int) (n : Nat) (ls : List Str) :
    (lowLevelNext t n ls).length = ls.length := by
  induction ls generalizing n with
  | nil => rfl
  | cons l rest ih => simp [lowLevelNext, ih]

/-- The outcome at position i depends only on line i and on the
counter value reached there. -/
theorem lowLevelNext_get (t : Int) (ls : List Str) (n i : Nat) (h : i < ls.length) :
    (lowLevelNext t n ls).get ⟨i, by rw [lowLevelNext_length]; exact h⟩ =
      (match parse_line t (ls.get ⟨i, h⟩) with
       | .ok r => Outcome.ok r
       | .error e => Outcome.err e (n + i + 1)) := by
  induction ls generalizing n i with
  | nil => exact absurd h (by simp)
  | cons l rest ih =>
    cases i with
    | zero => rfl
    | succ j =>
      have hj : j < rest.length := by simpa using h
      have hcons : (l :: rest).get ⟨j + 1, h⟩ = rest.get ⟨j, hj⟩ := rfl
      have hget : (lowLevelNext t n (l :: rest)).get
          ⟨j + 1, by rw [lowLevelNext_length]; exact h⟩ =
          (lowLevelNext t (n + 1) rest).get ⟨j, by rw [lowLevelNext_length]; exact hj⟩ := rfl
      rw [hget, ih (n + 1) j hj, hcons]
      have harith : n + 1 + j + 1 = n + (j + 1) + 1 := by omega
      rw [harith]

/-- C5: the low-level reader yields exactly one outcome per input line,
in input order; a successfully decoded line i contributes its record,
and a failing line i contributes an error outcome tagged with the
1-based line number i+1.  In particular the outcome of a line is
independent of decode failures on other lines. -/
theorem lowlevel_one_outcome_per_line (t : Int) (lines : List Str) :
    (lowLevelRead t lines).length = lines.length
    ∧ ∀ i (h : i < lines.length),
      (∀ r, parse_line t (lines.get ⟨i, h⟩) = .ok r →
        (lowLevelRead t lines).get ⟨i, (lowLevelNext_length t 0 lines).symm ▸ h⟩ = .ok r)
      ∧ (∀ e, parse_line t (lines.get ⟨i, h⟩) = .error e →
        (lowLevelRead t lines).get ⟨i, (lowLevelNext_length t 0 lines).symm ▸ h⟩
          = .err e (i + 1)) := by
  refine ⟨lowLevelNext_length t 0 lines, fun i h => ⟨fun r hr => ?_, fun e he => ?_⟩⟩
  · have key := lowLevelNext_get t lines 0 i h
    rw [hr] at key
    simpa using key
  · have key := lowLevelNext_get t lines 0 i h
    rw [he] at key
    simpa using key

/-- A three-line stream used to exhibit the low-level contract. -/
def demoLines : List Str := ["AXXXID1".data, "Q".data, "G12".data]

/-- Witness for C5: in a stream whose middle line has an unknown
record type, that line alone produces an error outcome, tagged with
line number 2, while the surrounding lines still decode. -/
theorem lowlevel_one_outcome_per_line_witness :
    (lowLevelRead 2026 demoLines).get ⟨1, by decide⟩ = .err .attributeError 2
    ∧ (lowLevelRead 2026 demoLines).get ⟨2, by decide⟩ = .ok (.G "12".data) := by
  constructor
  · exact ((lowlevel_one_outcome_per_line 2026 demoLines).2 1 (by decide)).2
      Err.attributeError (by decide)
  · exact ((lowlevel_one_outcome_per_line 2026 demoLines).2 2 (by decide)).1
      (Record.G "12".data) (by decide)

/-! ### C6: fail-fast aggregation -/

/-- Unfolding readGo on a decoded B record at the head. -/
theorem readGo_cons_B (st : ReadState) (v : BVal) (rest : List Outcome) :
    readGo st (.ok (.B v) :: rest) =
      (match process_B_record v st.fixRecordExtensions with
       | .error e => (Except.error (RErr.py e) : Except RErr ReadState)
       | .ok fr => readGo { st with fixRecords := st.fixRecords ++ [fr] } rest) := rfl

/-- Unfolding readGo on a decoded K record at the head. -/
theorem readGo_cons_K (st : ReadState) (v : KVal) (rest : List Outcome) :
    readGo st (.ok (.K v) :: rest) =
      (match process_K_record v st.kRecordExtensions with
       | .error e => (Except.error (RErr.py e) : Except RErr ReadState)
       | .ok kr => readGo { st with kRecords := st.kRecords ++ [kr] } rest) := rfl

/-- Processing a concatenation of outcome lists runs the second list
from the state reached by the first, unless the first already failed. -/
theorem readGo_append (st : ReadState) (xs ys : List Outcome) :
    readGo st (xs ++ ys) =
      (match readGo st xs with
       | .ok st2 => readGo st2 ys
       | .error e => .error e) := by
  induction xs generalizing st with
  | nil => rfl
  | cons o rest ih =>
    cases o with
    | err e n => rfl
    | ok r =>
      cases r with
      | A v => exact ih _
      | B v =>
        rw [List.cons_append, readGo_cons_B, readGo_cons_B]
        cases process_B_record v st.fixRecordExtensions with
        | error e => rfl
        | ok fr => exact ih _
      | C => exact ih _
      | D v => exact ih _
      | E => exact ih _
      | F t sats => exact ih _
      | G v => exact ih _
      | H v => exact ih _
      | I v => exact ih _
      | J v => exact ih _
      | K v =>
        rw [List.cons_append, readGo_cons_K, readGo_cons_K]
        cases process_K_record v st.kRecordExtensions with
        | error e => rfl
        | ok kr => exact ih _
      | L v => exact ih _

/-- C6 amended: Reader.read raises the generic InvalidIGCFileError as
soon as it meets an error outcome, provided every earlier outcome was
processed without an extension-resolution failure; no document is
returned.  (When resolution fails first, the resolver error itself
escapes instead: see the counterexample.) -/
theorem read_fails_fast_invalidIGC (t : Int) (lines : List Str) (k : Nat)
    (hk : k < lines.length)
    (he : ∃ e, parse_line t (lines.get ⟨k, hk⟩) = .error e)
    (hpre : ∃ st, readGo initState ((lowLevelRead t lines).take k) = .ok st) :
    read t lines = .error .invalidIGC := by
  obtain ⟨e, he⟩ := he
  obtain ⟨st, hst⟩ := hpre
  have hk2 : k < (lowLevelRead t lines).length := by
    have hlen : (lowLevelRead t lines).length = lines.length := lowLevelNext_length t 0 lines
    omega
  have hout : (lowLevelRead t lines).get ⟨k, hk2⟩ = .err e (k + 1) := by
    have key := lowLevelNext_get t lines 0 k hk
    rw [he] at key
    simpa using key
  have hdecomp : lowLevelRead t lines =
      (lowLevelRead t lines).take k ++
        ((lowLevelRead t lines).get ⟨k, hk2⟩ :: (lowLevelRead t lines).drop (k + 1)) := by
    conv_lhs => rw [← List.take_append_drop k (lowLevelRead t lines)]
    rw [List.drop_eq_getElem_cons hk2]
    rfl
  have hfull : readGo initState (lowLevelRead t lines) = .error .invalidIGC := by
    conv_lhs => rw [hdecomp]
    rw [readGo_append, hst, hout]
    rfl
  unfold read
  rw [hfull]

/-- Witness for the amended C6: an I record declaring one extension
followed by a D record with an impossible qualifier; the second line
fails to decode and read raises InvalidIGCFileError. -/
theorem read_fails_fast_invalidIGC_witness :
    read 2026 ["I013638GSP".data, "D3XXXX".data] = .error .invalidIGC :=
  read_fails_fast_invalidIGC 2026 ["I013638GSP".data, "D3XXXX".data] 1 (by decide)
    ⟨.valueError "This qualifier is not possible", by decide⟩ ⟨_, rfl⟩

/-- C6 counterexample: when extension resolution fails on a fix record
(here the declared range [36, 38) slices an empty payload and int()
raises ValueError), Reader.read does not raise InvalidIGCFileError: the
resolver error escapes unwrapped. -/
theorem resolver_error_escapes_read :
    read 2026 ["I013638GSP".data, "B1015005249950N00611280EA0012300123".data]
      = .error (.py (.valueError "invalid literal for int with base 10"))
    ∧ read 2026 ["I013638GSP".data, "B1015005249950N00611280EA0012300123".data]
      ≠ .error .invalidIGC :=
  ⟨rfl, by decide⟩

/-! ### C7: I and J extension-declaration records -/

/-- Inverting one loop iteration of decode_extension_record. -/
theorem buildExt_ok (line : Str) (j : Nat) (d : ExtDef) (h : buildExt line j = .ok d) :
    pyInt (pySlice (extBlock line j) 0 2) = .ok d.startByte
    ∧ pyInt (pySlice (extBlock line j) 2 4) = .ok d.endByte
    ∧ d.code = pySlice (extBlock line j) 4 7 := by
  unfold buildExt at h
  obtain ⟨s, hs, h⟩ := except_bind_ok_inv h
  obtain ⟨e2, he, h⟩ := except_bind_ok_inv h
  injection h with h2
  rw [← h2]
  exact ⟨hs, he, rfl⟩

/-- Inverting the whole declaration loop: a successful run of n
iterations produces n declarations, each parsed from its own block. -/
theorem buildExts_ok (line : Str) : ∀ (n : Nat) (exts : List ExtDef),
    buildExts line n = .ok exts →
    exts.length = n
    ∧ ∀ j (hj : j < exts.length),
        pyInt (pySlice (extBlock line j) 0 2) = .ok (exts.get ⟨j, hj⟩).startByte
        ∧ pyInt (pySlice (extBlock line j) 2 4) = .ok (exts.get ⟨j, hj⟩).endByte
        ∧ (exts.get ⟨j, hj⟩).code = pySlice (extBlock line j) 4 7 := by
  intro n
  induction n with
  | zero =>
    intro exts h
    injection h with h1
    rw [← h1]
    exact ⟨rfl, fun j hj => absurd hj (by simp)⟩
  | succ m ih =>
    intro exts h
    have hdef : buildExts line (m + 1) =
        (buildExts line m >>= fun ds => buildExt line m >>= fun d => .ok (ds ++ [d])) := rfl
    rw [hdef] at h
    cases hd : buildExts line m with
    | error e => rw [hd, except_bind_error] at h; exact Except.noConfusion h
    | ok ds =>
      rw [hd, except_bind_ok] at h
      cases hx : buildExt line m with
      | error e => rw [hx, except_bind_error] at h; exact Except.noConfusion h
      | ok d =>
        rw [hx, except_bind_ok] at h
        injection h with h1
        obtain ⟨hlen, hfacts⟩ := ih ds hd
        obtain ⟨h1s, h1e, h1c⟩ := buildExt_ok line m d hx
        subst h1
        constructor
        · simp [hlen]
        · intro j hj
          by_cases hcase : j < ds.length
          · have hget : (ds ++ [d]).get ⟨j, hj⟩ = ds.get ⟨j, hcase⟩ := by
              simp [List.getElem_append_left hcase]
            rw [hget]
            exact hfacts j hcase
          · have hje : j = ds.length := by
              have : j < ds.length + 1 := by simpa using hj
              omega
            subst hje
            have hget : (ds ++ [d]).get ⟨ds.length, hj⟩ = d := by
              simp
            rw [hget, hlen]
            exact ⟨h1s, h1e, h1c⟩

/-- C7: with the two-digit count parsed from columns 1 to 3, the
extension-record decoder fails with the count-mismatch ValueError
unless the trimmed line length is exactly count*7 + 3; on success it
returns exactly count declarations, each block j yielding its
two-digit start column, two-digit end column and three-letter code,
and decode_I_record maps an empty declaration list to the explicit
value None, which differs from an empty sequence. -/
theorem extension_record_count_check (line : Str) (count : Int)
    (hc : pyInt (pySlice line 1 3) = .ok count) :
    (count * 7 + 3 ≠ ((pyStrip line).length : Int) →
       decode_extension_record line
         = .error (.valueError "I record contains incorrect number of digits")
       ∧ decode_I_record line
         = .error (.valueError "I record contains incorrect number of digits"))
    ∧ (∀ exts, decode_extension_record line = .ok exts →
        count * 7 + 3 = ((pyStrip line).length : Int)
        ∧ (exts.length : Int) = count
        ∧ (∀ j (hj : j < exts.length),
             pyInt (pySlice (extBlock line j) 0 2) = .ok (exts.get ⟨j, hj⟩).startByte
             ∧ pyInt (pySlice (extBlock line j) 2 4) = .ok (exts.get ⟨j, hj⟩).endByte
             ∧ (exts.get ⟨j, hj⟩).code = pySlice (extBlock line j) 4 7)
        ∧ decode_I_record line = .ok (.I (if exts = [] then none else some exts))
        ∧ some ([] : List ExtDef) ≠ (none : Option (List ExtDef))) := by
  have hdef : decode_extension_record line =
      (pyInt (pySlice line 1 3) >>= fun c =>
        if c * 7 + 3 ≠ ((pyStrip line).length : Int) then
          .error (.valueError "I record contains incorrect number of digits")
        else buildExts line c.toNat) := rfl
  have hdefI : decode_I_record line =
      (decode_extension_record line >>= fun exts =>
        .ok (.I (if exts.isEmpty then none else some exts))) := rfl
  constructor
  · intro hne
    have h1 : decode_extension_record line
        = .error (.valueError "I record contains incorrect number of digits") := by
      rw [hdef, hc, except_bind_ok, if_pos hne]
    exact ⟨h1, by rw [hdefI, h1, except_bind_error]⟩
  · intro exts hok
    have h2 : (if count * 7 + 3 ≠ ((pyStrip line).length : Int) then
        (.error (.valueError "I record contains incorrect number of digits")
          : Except Err (List ExtDef))
        else buildExts line count.toNat) = .ok exts := by
      rw [hdef, hc, except_bind_ok] at hok
      exact hok
    by_cases hcond : count * 7 + 3 ≠ ((pyStrip line).length : Int)
    · rw [if_pos hcond] at h2
      exact absurd h2 (by simp)
    · have heq : count * 7 + 3 = ((pyStrip line).length : Int) := by
        push_neg at hcond
        exact hcond
      rw [if_neg hcond] at h2
      obtain ⟨hlen, hfacts⟩ := buildExts_ok line count.toNat exts h2
      have hnn : 0 ≤ count := by
        have hpos : (0 : Int) ≤ ((pyStrip line).length : Int) := by positivity
        omega
      have hcnt : (exts.length : Int) = count := by
        rw [hlen]
        omega
      refine ⟨heq, hcnt, hfacts, ?_, by decide⟩
      rw [hdefI, hok, except_bind_ok]
      cases exts with
      | nil => rfl
      | cons a as => simp

/-- Witness for C7: the count boundary and the block decoding on
concrete I records — I0136 has count 1 but trimmed length 5, I013638GSP
declares (36, 38, GSP), and I00 declares the explicit None value. -/
theorem extension_record_count_check_witness :
    decode_extension_record "I0136".data
      = .error (.valueError "I record contains incorrect number of digits")
    ∧ decode_I_record "I013638GSP".data = .ok (.I (some [⟨36, 38, "GSP".data⟩]))
    ∧ decode_I_record "I00".data = .ok (.I none) := by
  refine ⟨?_, ?_, ?_⟩
  · exact ((extension_record_count_check "I0136".data 1 (by decide)).1 (by decide)).1
  · have h := (extension_record_count_check "I013638GSP".data 1 (by decide)).2
      [⟨36, 38, "GSP".data⟩] (by decide)
    simpa using h.2.2.2.1
  · have h := (extension_record_count_check "I00".data 0 (by decide)).2 [] (by decide)
    simpa using h.2.2.2.1

/-! ### C8: GSP extension on fix records -/

/-- Every successfully decoded B record carries the payload anchor 35. -/
theorem decode_B_record_ok (line : Str) (bv : BVal)
    (h : decode_B_record line = .ok (.B bv)) : bv.startIndexExtensions = 35 := by
  unfold decode_B_record at h
  cases ht : decode_time (pySlice line 1 7) with
  | error e => rw [ht, except_bind_error] at h; exact Except.noConfusion h
  | ok t =>
    rw [ht, except_bind_ok] at h
    cases hv : pyGet line 24 with
    | error e => rw [hv, except_bind_error] at h; exact Except.noConfusion h
    | ok c =>
      rw [hv, except_bind_ok] at h
      cases hp : pyInt (pySlice line 25 30) with
      | error e => rw [hp, except_bind_error] at h; exact Except.noConfusion h
      | ok pa =>
        rw [hp, except_bind_ok] at h
        cases hg : pyInt (pySlice line 30 35) with
        | error e => rw [hg, except_bind_error] at h; exact Except.noConfusion h
        | ok ga =>
          rw [hg, except_bind_ok] at h
          injection h with h1
          injection h1 with h2
          rw [← h2]

/-- Resolving one declaration whose slice parses as an integer. -/
theorem processBExts_single (ext : Str) (i : Int) (d0 : Dict) (e1 : ExtDef) (n : Int)
    (h : pyInt (pySlice ext (e1.startByte - i) (e1.endByte - i)) = .ok n) :
    processBExts ext i d0 [e1] = .ok (dictSet d0 e1.code (.vint n)) := by
  simp only [processBExts]
  rw [h, except_bind_ok]

/-- C8: any line whose fix-record decode succeeds, resolved against
the declarations of the I record I013638GSP (the single extension
(36, 38, GSP)), produces a record whose GSP field is the integer parsed
from the payload slice [1:3] (the anchor is 35, so 36..38 maps to 1..3). -/
theorem fix_record_gsp_extension (iv : Option (List ExtDef)) (line : Str) (bv : BVal) (n : Int)
    (hI : decode_I_record "I013638GSP".data = .ok (.I iv))
    (hB : decode_B_record line = .ok (.B bv))
    (hn : pyInt (pySlice bv.extensionsString 1 3) = .ok n) :
    ∃ fr, process_B_record bv iv = .ok fr ∧ dictGet fr ("GSP".data) = some (.vint n) := by
  have hiv : iv = some [⟨36, 38, "GSP".data⟩] := by
    have hIc : decode_I_record "I013638GSP".data
        = .ok (.I (some [⟨36, 38, "GSP".data⟩])) := by decide
    rw [hIc] at hI
    injection hI with h1
    injection h1 with h2
    exact h2.symm
  subst hiv
  have h35 := decode_B_record_ok line bv hB
  have hbase : process_B_record bv (some [⟨36, 38, "GSP".data⟩]) =
      processBExts bv.extensionsString bv.startIndexExtensions
        [("time".data, .vtime bv.time), ("lat".data, .vstr bv.lat),
         ("lon".data, .vstr bv.lon), ("validity".data, .vstr [bv.validity]),
         ("pressure_alt".data, .vint bv.pressureAlt), ("gps_alt".data, .vint bv.gpsAlt)]
        [⟨36, 38, "GSP".data⟩] := rfl
  rw [hbase, h35]
  have hn2 : pyInt (pySlice bv.extensionsString
      ((⟨36, 38, "GSP".data⟩ : ExtDef).startByte - 35)
      ((⟨36, 38, "GSP".data⟩ : ExtDef).endByte - 35)) = .ok n := by
    norm_num
    exact hn
  exact ⟨_, processBExts_single _ _ _ _ _ hn2, dictGet_dictSet _ _ _⟩

/-- Witness for C8: a concrete 39-character B line with payload 0088;
the GSP field of the resolved record is 8, the integer at payload
slice [1:3]. -/
theorem fix_record_gsp_extension_witness :
    ∃ fr, process_B_record
        ⟨⟨10, 15, 0⟩, "5249950N".data, "00611280E".data, 'A', 123, 123, 35, "0088".data⟩
        (some [⟨36, 38, "GSP".data⟩]) = .ok fr
      ∧ dictGet fr ("GSP".data) = some (.vint 8) :=
  fix_record_gsp_extension (some [⟨36, 38, "GSP".data⟩])
    "B1015005249950N00611280EA00123001230088".data
    ⟨⟨10, 15, 0⟩, "5249950N".data, "00611280E".data, 'A', 123, 123, 35, "0088".data⟩ 8
    (by decide) (by decide) (by decide)

/-! ### C10: the H GPS receiver descriptor -/

/-- A successful gps_sensor computation is a split, hence nonempty. -/
theorem gpsSensorFields_ok_ne_nil (line : Str) (gs : List Str)
    (h : gpsSensorFields line = .ok gs) : gs ≠ [] := by
  unfold gpsSensorFields at h
  cases hc : pyGet line 5 with
  | error e => rw [hc, except_bind_error] at h; exact Except.noConfusion h
  | ok c =>
    rw [hc, except_bind_ok] at h
    by_cases hcol : c = ':'
    · rw [if_pos hcol] at h
      injection h with h1
      rw [← h1]
      exact pySplit_ne_nil _ _
    · rw [if_neg hcol] at h
      injection h with h1
      rw [← h1]
      exact pySplit_ne_nil _ _

/-- When decode_H_gps_receiver succeeds, the first comma field of the
descriptor was unpacked by a colon split into exactly two parts, so it
contains exactly one colon. -/
theorem decode_H_gps_receiver_ok (line : Str) (d : Dict)
    (h : decode_H_gps_receiver line = .ok d) :
    ∃ f rest, gpsSensorFields line = .ok (f :: rest) ∧ countChar f ':' = 1 := by
  unfold decode_H_gps_receiver at h
  cases hg : gpsSensorFields line with
  | error e => rw [hg, except_bind_error] at h; exact Except.noConfusion h
  | ok gs =>
    rw [hg, except_bind_ok] at h
    cases gs with
    | nil => exact absurd rfl (gpsSensorFields_ok_ne_nil line [] hg)
    | cons f rest =>
      refine ⟨f, rest, rfl, ?_⟩
      have hdef : hGpsLoop 0 (f :: rest) none none none none =
          (match pySplit f ':' with
           | [a, b] => hGpsLoop 1 rest (some a) (some b) none none
           | _ => .error (.valueError "values to unpack")) := rfl
      rw [hdef] at h
      rcases hsp : pySplit f ':' with _ | ⟨a, _ | ⟨b, _ | ⟨c2, t2⟩⟩⟩
      · rw [hsp] at h
        exact Except.noConfusion h
      · rw [hsp] at h
        exact Except.noConfusion h
      · have hl := pySplit_length f ':'
        rw [hsp] at hl
        simp at hl
        omega
      · rw [hsp] at h
        exact Except.noConfusion h

/-- C10: for every line dispatched to the H decoder with three-letter
code GPS that parses successfully, the first comma-delimited field of
the gps_sensor descriptor (computed after the optional leading colon)
contains exactly one colon. -/
theorem h_gps_first_field_one_colon (t : Int) (line : Str) (r : Record)
    (hH : pyGet line 0 = .ok 'H')
    (hGPS : pySlice line 2 5 = "GPS".data)
    (hok : parse_line t line = .ok r) :
    ∃ f rest, gpsSensorFields line = .ok (f :: rest) ∧ countChar f ':' = 1 := by
  unfold parse_line at hok
  rw [hH, except_bind_ok, if_neg (by decide), if_neg (by decide), if_neg (by decide),
      if_neg (by decide), if_neg (by decide), if_neg (by decide), if_neg (by decide),
      if_pos rfl] at hok
  unfold decode_H_record at hok
  cases hs : pyGet line 1 with
  | error e => rw [hs, except_bind_error] at hok; exact Except.noConfusion hok
  | ok src =>
    rw [hs, except_bind_ok, hGPS] at hok
    unfold decode_H_dispatch at hok
    rw [if_neg (by decide), if_neg (by decide), if_neg (by decide), if_neg (by decide),
        if_neg (by decide), if_neg (by decide), if_neg (by decide), if_neg (by decide),
        if_neg (by decide), if_neg (by decide), if_pos rfl] at hok
    cases hv : decode_H_gps_receiver line with
    | error e => rw [hv, except_bind_error] at hok; exact Except.noConfusion hok
    | ok v => exact decode_H_gps_receiver_ok line v hv

/-- Witness for C10: the H record HFGPSFLARM:F9,12 decodes, and its
first comma field FLARM:F9 contains exactly one colon. -/
theorem h_gps_first_field_one_colon_witness :
    ∃ f rest, gpsSensorFields ("HFGPSFLARM:F9,12".data) = .ok (f :: rest)
      ∧ countChar f ':' = 1 :=
  h_gps_first_field_one_colon 2026 ("HFGPSFLARM:F9,12".data)
    (.H [("manufacturer".data, .vstr "FLARM".data), ("model".data, .vstr "F9".data),
         ("channels".data, .vstr "12".data), ("max_alt".data, .vnone),
         ("source".data, .vstr "F".data)])
    (by decide) (by decide) (by decide)

end IGC
